import Mathlib

/-!
Verification of the WaveShaper-Control OSA acquisition protocol.

This file shallowly embeds the protocol logic of src/OSACode_ForFiO.py and
src/OSA.py (class AQ6370D / class OSA and the acquisition loop in the
script entry point of OSACode_ForFiO.py):

* Python strings are embedded as List Char, Python bytes as List Nat.
* Python float(...) conversion is embedded as pyFloat, returning an exact
  value (rationals for finite decimal literals, with distinguished
  infinity / nan results); IEEE rounding is idealized away, which is
  irrelevant here since all verified properties concern parse success,
  sample counts and control flow.
* Stateful code is embedded by explicit state passing; a Python statement
  that raises an uncaught exception is embedded with Except.
* The acquisition loop is embedded twice: runSessionCalls composes each
  iteration with the outcome of the line-178 get_single_trace() call
  exactly as the script writes it (an arity TypeError at the call site),
  while runSession drives the response handling with per-iteration
  trace_data values - the mock transport of the specification
  testable-properties section - under which the response-conditional
  properties are stated.
-/

/-- Result of the Python float(...) conversion: a finite rational value,
a signed infinity, or nan. -/
inductive PyFloatVal where
  | fin (q : ℚ)
  | inf (neg : Bool)
  | nan
  deriving DecidableEq, Repr

/-- ASCII whitespace stripped by Python str.strip() and by float(...). -/
def isPySpace (c : Char) : Bool :=
  c == ' ' || c == '\t' || c == '\n' || c == '\r' || c == '\x0b' || c == '\x0c'

/-- Embedding of Python str.strip(): drop whitespace at both ends. -/
def pyStrip (l : List Char) : List Char :=
  ((l.dropWhile isPySpace).reverse.dropWhile isPySpace).reverse

/-- Continue a Python digit-part right after a digit was read: further
digits, with single underscores allowed only between two digits.  Returns
the digits read and the unconsumed remainder. -/
def digitsCont : List Char → List Char × List Char
  | [] => ([], [])
  | c :: rest =>
    if c.isDigit then
      let p := digitsCont rest
      (c :: p.1, p.2)
    else if c = '_' then
      match rest with
      | d :: rest2 =>
        if d.isDigit then
          let p := digitsCont rest2
          (d :: p.1, p.2)
        else ([], '_' :: d :: rest2)
      | [] => ([], ['_'])
    else ([], c :: rest)

/-- Collect a leading Python digit-part: digits, with single underscores
allowed only between two digits (as in float("1_0")).  Returns the digits
read and the unconsumed remainder. -/
def takeDigitsU (l : List Char) : List Char × List Char :=
  match l with
  | [] => ([], [])
  | c :: rest =>
    if c.isDigit then
      let p := digitsCont rest
      (c :: p.1, p.2)
    else ([], c :: rest)

/-- Numeric value of a list of decimal digits. -/
def digitsToNat (ds : List Char) : Nat :=
  ds.foldl (fun n c => n * 10 + (c.toNat - 48)) 0

/-- Parse the optional exponent suffix of a Python float literal;
a leftover that is not a well-formed exponent fails. -/
def parseExponent : List Char → Option Int
  | [] => some 0
  | e :: rest =>
    if e = 'e' ∨ e = 'E' then
      let signed : List Char × Bool :=
        match rest with
        | '+' :: r2 => (r2, false)
        | '-' :: r2 => (r2, true)
        | r2 => (r2, false)
      let p := takeDigitsU signed.1
      if p.1 ≠ [] ∧ p.2 = [] then
        some (if signed.2 then -(digitsToNat p.1 : Int) else (digitsToNat p.1 : Int))
      else none
    else none

/-- Parse an unsigned Python float literal (digit part, optional fraction,
optional exponent) to its exact rational value. -/
def parseUnsignedFloat (cs : List Char) : Option ℚ :=
  let pI := takeDigitsU cs
  match pI.2 with
  | '.' :: rest =>
    let pF := takeDigitsU rest
    if pI.1 = [] ∧ pF.1 = [] then none
    else
      match parseExponent pF.2 with
      | none => none
      | some e =>
        let base : ℚ := (digitsToNat pI.1 : ℚ) +
          (digitsToNat pF.1 : ℚ) / ((10 : ℚ) ^ pF.1.length)
        some (base * (10 : ℚ) ^ e)
  | r1 =>
    if pI.1 = [] then none
    else
      match parseExponent r1 with
      | none => none
      | some e => some ((digitsToNat pI.1 : ℚ) * (10 : ℚ) ^ e)

/-- Embedding of Python float(str): strip whitespace, optional sign,
then either (case-insensitive) inf / infinity / nan or a float literal.
Returns none where Python raises ValueError. -/
def pyFloat (seg : List Char) : Option PyFloatVal :=
  let t := pyStrip seg
  let sp : List Char × Bool :=
    match t with
    | '+' :: r => (r, false)
    | '-' :: r => (r, true)
    | r => (r, false)
  let body := sp.1.map Char.toLower
  if body = ['i', 'n', 'f'] ∨ body = ['i', 'n', 'f', 'i', 'n', 'i', 't', 'y'] then
    some (PyFloatVal.inf sp.2)
  else if body = ['n', 'a', 'n'] then
    some PyFloatVal.nan
  else
    match parseUnsignedFloat sp.1 with
    | none => none
    | some q => some (PyFloatVal.fin (if sp.2 then -q else q))

/-- Embedding of Python str.split(sep) for a one-character separator:
"a,,b" gives ["a", "", "b"], "" gives [""]. -/
def splitOnChar (sep : Char) : List Char → List (List Char)
  | [] => [[]]
  | c :: rest =>
    if c = sep then [] :: splitOnChar sep rest
    else
      match splitOnChar sep rest with
      | [] => [[c]]
      | seg :: segs => (c :: seg) :: segs

/-- Whether pat occurs at the head of l. -/
def leadsWith : List Char → List Char → Bool
  | [], _ => true
  | _ :: _, [] => false
  | p :: ps, c :: cs => p == c && leadsWith ps cs

/-- Combined embedding of the Python idiom
pat in s / s.split(pat, 1)[1]: some suffix-after-the-first-occurrence
when pat occurs in s, none when it does not. -/
def findAfter (pat : List Char) : List Char → Option (List Char)
  | [] => none
  | c :: rest =>
    if leadsWith pat (c :: rest) then some ((c :: rest).drop pat.length)
    else findAfter pat rest

/-- The sentinel marker, "ready". -/
def readyChars : List Char := ['r', 'e', 'a', 'd', 'y']

/-- List Char view of a string literal. -/
def chars (s : String) : List Char := s.data

/-- Embedding of the sample parse on the text after the sentinel
(OSACode_ForFiO.py line 183, identically OSA.py line 223):
split on the comma, keep only segments whose strip() is non-empty,
convert each kept segment with float(...); none models the uncaught
ValueError when some kept segment is not numeric. -/
def parseIntensities (text_after_ready : List Char) : Option (List PyFloatVal) :=
  ((splitOnChar ',' text_after_ready).filter
    (fun seg => !(pyStrip seg).isEmpty)).mapM pyFloat

/-- Embedding of numpy.linspace(start, stop, num) with its default
inclusive endpoint: num evenly spaced rationals from start to stop. -/
def pyLinspace (start stop : ℚ) (num : Nat) : List ℚ :=
  match num with
  | 0 => []
  | 1 => [start]
  | Nat.succ (Nat.succ m) =>
    (List.range (m + 2)).map
      (fun (i : Nat) => start + ((stop - start) * (i : ℚ)) / ((m : ℚ) + 1))

/-- One (wavelengths, intensities, iteration) hand-off to the persistence
collaborator AQ6370D.save_data_to_csv. -/
structure SaveRecord where
  wavelengths : List ℚ
  intensities : List PyFloatVal
  iteration : Nat
  deriving DecidableEq, Repr

/-- The mutable script state of the acquisition loop in OSACode_ForFiO.py:
target_data_length, iteration_count, the hand-offs done so far, and the
number of inter-iteration time.sleep(0.1) calls executed. -/
structure SessionState where
  target : Option Nat
  count : Nat
  saved : List SaveRecord
  sleeps : Nat
  deriving DecidableEq, Repr

/-- Classification of what one loop iteration did. -/
inductive IterOutcome where
  | accepted
  | discardedMismatch
  | noSentinel
  | noData
  deriving DecidableEq, Repr

/-- Python exceptions that the embedded code can raise. -/
inductive PyExc where
  | valueError
  | typeError
  | nameError
  deriving DecidableEq, Repr

/-- Embedding of the response-handling part of one iteration of the
while-loop body of OSACode_ForFiO.py (lines 180-211), given the
trace_data value a get_single_trace call would have produced for this
iteration (none models a None return).  The line-178 call that should
produce trace_data is embedded separately (line178Call, runSessionCalls):
as the script writes it, it raises at the call site, so in the
unrepaired script this handling is never reached.  An Except.error
result models an exception escaping the loop body uncaught (the float
ValueError on a malformed sample: lines 182-183 are covered by no
try-block). -/
def sessionIter (s : SessionState) (trace_data : Option (List Char)) :
    Except PyExc (SessionState × IterOutcome) :=
  match trace_data with
  | none => Except.ok ({ s with sleeps := s.sleeps + 1 }, IterOutcome.noData)
  | some t =>
    if t.isEmpty then
      Except.ok ({ s with sleeps := s.sleeps + 1 }, IterOutcome.noData)
    else
      match findAfter readyChars t with
      | none => Except.ok ({ s with sleeps := s.sleeps + 1 }, IterOutcome.noSentinel)
      | some text_after_ready =>
        match parseIntensities text_after_ready with
        | none => Except.error PyExc.valueError
        | some intensities =>
          match s.target with
          | none =>
            Except.ok ({ target := some intensities.length,
                         count := s.count + 1,
                         saved := s.saved ++
                           [{ wavelengths := pyLinspace 600 1100 intensities.length,
                              intensities := intensities,
                              iteration := s.count + 1 }],
                         sleeps := s.sleeps + 1 }, IterOutcome.accepted)
          | some tgt =>
            if intensities.length = tgt then
              Except.ok ({ s with
                           count := s.count + 1,
                           saved := s.saved ++
                             [{ wavelengths := pyLinspace 600 1100 intensities.length,
                                intensities := intensities,
                                iteration := s.count + 1 }],
                           sleeps := s.sleeps + 1 }, IterOutcome.accepted)
            else Except.ok (s, IterOutcome.discardedMismatch)

/-- The acquisition while-loop
(while iteration_count < required_iterations) with the line-178 call
abstracted to the specification mock transport: response n is the
trace_data iteration n receives, each iteration constructing a fresh
transport.  If the response list is exhausted before the counter reaches
the requirement, the state reached so far is returned.
(runSessionCalls below composes the same loop with the outcome of the
call itself.) -/
def runSession (required : Nat) (s : SessionState)
    (responses : List (Option (List Char))) : Except PyExc SessionState :=
  if s.count < required then
    match responses with
    | [] => Except.ok s
    | r :: rest =>
      match sessionIter s r with
      | Except.error e => Except.error e
      | Except.ok p => runSession required p.1 rest
  else Except.ok s

/-- The script state at the start of a run (lines 170-172). -/
def initSession : SessionState :=
  { target := none, count := 0, saved := [], sleeps := 0 }

/-- Embedding of the call at line 178 as the script writes it:
osa.get_single_trace() passes no arguments to AQ6370D.get_single_trace
(line 108), whose signature requires wavelength_start and
wavelength_stop, so Python raises TypeError at the call site - before
the method body and its internal try/except are ever entered, and
outside any try-block of the script body. -/
def line178Call : Except PyExc (Option (List Char)) :=
  Except.error PyExc.typeError

/-- Embedding of the acquisition while-loop exactly as written (lines
176-211): iteration n first performs the line-178 call, whose outcome is
element n of calls; an erroring call aborts the script, otherwise the
response handling of sessionIter runs.  For the script as written every
element of calls is line178Call. -/
def runSessionCalls (required : Nat) (s : SessionState)
    (calls : List (Except PyExc (Option (List Char)))) : Except PyExc SessionState :=
  if s.count < required then
    match calls with
    | [] => Except.ok s
    | c :: rest =>
      match c with
      | Except.error e => Except.error e
      | Except.ok r =>
        match sessionIter s r with
        | Except.error e => Except.error e
        | Except.ok p => runSessionCalls required p.1 rest
  else Except.ok s

/-- A response carrying n parseable samples after the sentinel. -/
def mkResp (n : Nat) : List Char :=
  readyChars ++ (List.replicate n (chars ",1.0")).flatten

/-- The always-consistent mock response of the end-to-end scenario. -/
def goodResp : List Char := chars "ready,1.1,2.2,3.3"

/-- What one socket.recv attempt inside AQ6370D.__query__ produced: a
chunk of bytes (the empty chunk models a remote close / end-of-data
zero-byte read) or a socket.timeout after the 20-unit idle timeout. -/
inductive ReadEvent where
  | chunk (bytes : List Nat)
  | timeout
  deriving DecidableEq, Repr

/-- Is a continuation byte of a UTF-8 sequence. -/
def contByte (b : Nat) : Bool := 128 ≤ b && b ≤ 191

/-- Valid second byte of a three-byte UTF-8 sequence led by b0 (excludes
overlong encodings and surrogates, as the Python utf-8 codec does). -/
def cont3fst (b0 b1 : Nat) : Bool :=
  if b0 = 224 then 160 ≤ b1 && b1 ≤ 191
  else if b0 = 237 then 128 ≤ b1 && b1 ≤ 159
  else contByte b1

/-- Valid second byte of a four-byte UTF-8 sequence led by b0 (excludes
overlong encodings and code points above 0x10FFFF). -/
def cont4fst (b0 b1 : Nat) : Bool :=
  if b0 = 240 then 144 ≤ b1 && b1 ≤ 191
  else if b0 = 244 then 128 ≤ b1 && b1 ≤ 143
  else contByte b1

/-- Treat a byte as the start of a new UTF-8 sequence: an ASCII char, the
lead of a multi-byte sequence (kept pending), or an undecodable byte that
the ignore handler drops. -/
def utf8Dispatch (b : Nat) : List Char × List Nat :=
  if b < 128 then ([Char.ofNat b], [])
  else if (194 ≤ b && b ≤ 223) || (224 ≤ b && b ≤ 239) || (240 ≤ b && b ≤ 244) then
    ([], [b])
  else ([], [])

/-- One byte of UTF-8 decoding with the ignore error handler: the state is
(decoded characters so far, pending incomplete sequence).  An invalid
continuation drops the pending bytes and restarts at the current byte. -/
def utf8Step (p : List Char × List Nat) (b : Nat) : List Char × List Nat :=
  match p.2 with
  | [] =>
    let d := utf8Dispatch b
    (p.1 ++ d.1, d.2)
  | [b0] =>
    if 194 ≤ b0 && b0 ≤ 223 then
      if contByte b then (p.1 ++ [Char.ofNat ((b0 - 192) * 64 + (b - 128))], [])
      else
        let d := utf8Dispatch b
        (p.1 ++ d.1, d.2)
    else if 224 ≤ b0 && b0 ≤ 239 then
      if cont3fst b0 b then (p.1, [b0, b])
      else
        let d := utf8Dispatch b
        (p.1 ++ d.1, d.2)
    else
      if cont4fst b0 b then (p.1, [b0, b])
      else
        let d := utf8Dispatch b
        (p.1 ++ d.1, d.2)
  | [b0, b1] =>
    if b0 ≤ 239 then
      if contByte b then
        (p.1 ++ [Char.ofNat ((b0 - 224) * 4096 + (b1 - 128) * 64 + (b - 128))], [])
      else
        let d := utf8Dispatch b
        (p.1 ++ d.1, d.2)
    else
      if contByte b then (p.1, [b0, b1, b])
      else
        let d := utf8Dispatch b
        (p.1 ++ d.1, d.2)
  | b0 :: b1 :: b2 :: _ =>
    if contByte b then
      (p.1 ++ [Char.ofNat ((b0 - 240) * 262144 + (b1 - 128) * 4096 + (b2 - 128) * 64 +
        (b - 128))], [])
    else
      let d := utf8Dispatch b
      (p.1 ++ d.1, d.2)

/-- Embedding of bytes.decode("utf-8", errors="ignore"): decode the valid
UTF-8 sequences and drop undecodable bytes instead of raising; a
truncated trailing sequence is dropped. -/
def utf8DecodeIgnore (bs : List Nat) : List Char :=
  (bs.foldl utf8Step ([], [])).1

/-- Embedding of the accumulation loop of AQ6370D.__query__ (lines
81-91): append each chunk to received_data; a zero-byte read or a
socket.timeout breaks the loop.  Yields the accumulated bytes. -/
def receiveLoop : List ReadEvent → List Nat
  | [] => []
  | ReadEvent.timeout :: _ => []
  | ReadEvent.chunk b :: rest => if b.isEmpty then [] else b ++ receiveLoop rest

/-- The text AQ6370D.__query__ returns: the accumulated bytes decoded
best-effort (line 93). -/
def receiveText (events : List ReadEvent) : List Char :=
  utf8DecodeIgnore (receiveLoop events)

/-- Modelled from the spec (ResponseReceiver contract): an event is a
successfully read non-empty data chunk. -/
def isDataChunk : ReadEvent → Bool
  | ReadEvent.chunk b => !b.isEmpty
  | ReadEvent.timeout => false

/-- The payload bytes of an event. -/
def chunkBytes : ReadEvent → List Nat
  | ReadEvent.chunk b => b
  | ReadEvent.timeout => []

/-- Modelled from the spec (ResponseReceiver contract): the chunks read
before the terminating zero-byte read or idle timeout. -/
def chunksBeforeTermination (events : List ReadEvent) : List (List Nat) :=
  (events.takeWhile isDataChunk).map chunkBytes

/-- Observable effect of one AQ6370D.send_command call: the exact text
written to the socket (none when nothing was written), the settle delay
imposed, and whether an exception propagated to the caller. -/
structure SendResult where
  written : Option (List Char)
  slept : ℚ
  raised : Bool
  deriving DecidableEq, Repr

/-- Embedding of AQ6370D.send_command (lines 67-75): when a socket is
present and the write succeeds, the command plus the line
terminator is written and a 0.2 settle delay is imposed; when the socket
is absent, or the write raises, a diagnostic is printed and the method
returns normally (the try/except swallows every exception). -/
def send_command (socketPresent : Bool) (writeOk : Bool) (cmd : List Char) : SendResult :=
  if socketPresent then
    if writeOk then
      { written := some (cmd ++ ['\r', '\n']), slept := 2 / 10, raised := false }
    else { written := none, slept := 0, raised := false }
  else { written := none, slept := 0, raised := false }

/-- Embedding of OSA.ArrayForLabview / AQ6370D.ArrayForLabview: take the
text after the sentinel, convert every comma segment with float(...)
(without the empty-segment filter of the acquisition loop), and derive a
wavelength axis of len(InputArray) points, where InputArray is the whole
input string.  none models the uncaught IndexError / ValueError. -/
def ArrayForLabview (InputArray : List Char) (wavelengthStart wavelengthEnd : ℚ) :
    Option (List ℚ × List PyFloatVal) :=
  match findAfter readyChars InputArray with
  | none => none
  | some NumArray =>
    match (splitOnChar ',' NumArray).mapM pyFloat with
    | none => none
    | some OutputArray =>
      some (pyLinspace wavelengthStart wavelengthEnd InputArray.length, OutputArray)

/-- Modelled from the spec (TracePayloadParser contract): locate the
sentinel (failing when absent), split the text after its first occurrence
on the comma, discard empty or whitespace-only segments, and parse each
remaining segment as a float, failing when a segment is non-numeric. -/
def specSentinelParse (text : List Char) : Option (List PyFloatVal) :=
  match findAfter readyChars text with
  | none => none
  | some payload =>
    ((splitOnChar ',' payload).filter (fun seg => !(pyStrip seg).isEmpty)).mapM pyFloat

/-- The instrument commands issued by get_single_trace, with their
numeric parameters. -/
inductive Cmd where
  | openAnon
  | rst
  | cform1
  | wavStart (w : ℚ)
  | wavStop (w : ℚ)
  | sensHigh2
  | speed2x
  | pointsAuto
  | smode1
  | cls
  | initSweep
  | traceQuery
  deriving DecidableEq, Repr

/-- Environment of one get_single_trace call: which transport operations
succeed, and what the socket reads produce (an Except.error models a
fatal, non-timeout receive exception). -/
structure DeviceEnv where
  socketCreateOk : Bool
  connectOk : Bool
  sendOk : Bool
  recvOutcome : Except Unit (List ReadEvent)

/-- Observable connection state of one AQ6370D / OSA object. -/
structure OSAState where
  socketExists : Bool
  connected : Bool
  closeMethodRuns : Nat
  socketClosed : Bool
  sentCmds : List Cmd
  deriving DecidableEq, Repr

/-- The state of a freshly constructed driver object. -/
def initOSA : OSAState :=
  { socketExists := false, connected := false, closeMethodRuns := 0,
    socketClosed := false, sentCmds := [] }

/-- Embedding of open_socket (lines 53-60): socket creation sets
self.socket even when the subsequent connect fails; every exception is
caught and printed. -/
def open_socket (env : DeviceEnv) (s : OSAState) : OSAState :=
  if env.socketCreateOk then
    if env.connectOk then { s with socketExists := true, connected := true }
    else { s with socketExists := true }
  else s

/-- Embedding of send_command at the pipeline level: the command is
recorded when a socket exists and the write succeeds; every failure is
swallowed. -/
def send_cmd (env : DeviceEnv) (s : OSAState) (cmd : Cmd) : OSAState :=
  if s.socketExists then
    if env.sendOk then { s with sentCmds := s.sentCmds ++ [cmd] } else s
  else s

/-- Sequential fire-and-forget command sends. -/
def sendSeq (env : DeviceEnv) (s : OSAState) (cmds : List Cmd) : OSAState :=
  cmds.foldl (send_cmd env) s

/-- Embedding of __query__ (lines 77-99): send the command, then (when a
socket exists) run the accumulation loop and decode; a fatal receive
exception, or an absent socket, yields None. -/
def osaQuery (env : DeviceEnv) (s : OSAState) (cmd : Cmd) : OSAState × Option (List Char) :=
  (send_cmd env s cmd,
    if (send_cmd env s cmd).socketExists then
      match env.recvOutcome with
      | Except.error _ => none
      | Except.ok events => some (utf8DecodeIgnore (receiveLoop events))
    else none)

/-- Embedding of close_socket (lines 62-65): the method always runs; the
underlying socket close happens only when a socket exists. -/
def close_socket (s : OSAState) : OSAState :=
  if s.socketExists then
    { s with closeMethodRuns := s.closeMethodRuns + 1, socketClosed := true }
  else { s with closeMethodRuns := s.closeMethodRuns + 1 }

/-- The setup/sweep command sequence of get_single_trace, in source
order: initialize_connection, then lines 111-123. -/
def cmdSequence (w1 w2 : ℚ) : List Cmd :=
  [Cmd.openAnon, Cmd.rst, Cmd.cform1, Cmd.wavStart w1, Cmd.wavStop w2,
   Cmd.sensHigh2, Cmd.speed2x, Cmd.pointsAuto, Cmd.smode1, Cmd.cls, Cmd.initSweep]

/-- The driver state after open_socket and the whole command sequence. -/
def pipelineState (env : DeviceEnv) (w1 w2 : ℚ) : OSAState :=
  sendSeq env (open_socket env initOSA) (cmdSequence w1 w2)

/-- The value/exception the try-block of AQ6370D.get_single_trace (lines
109-128) produces from the query result: printing trace_data[:40] raises
TypeError when trace_data is None, otherwise trace_data is returned. -/
def AQ_body_result (td : Option (List Char)) : Except PyExc (Option (List Char)) :=
  match td with
  | none => Except.error PyExc.typeError
  | some t => Except.ok (some t)

/-- The try-block of AQ6370D.get_single_trace: configure, query, print;
paired with the driver state it reaches. -/
def AQ_trace_body (env : DeviceEnv) (w1 w2 : ℚ) :
    Except PyExc (Option (List Char)) × OSAState :=
  (AQ_body_result (osaQuery env (pipelineState env w1 w2) Cmd.traceQuery).2,
   (osaQuery env (pipelineState env w1 w2) Cmd.traceQuery).1)

/-- The translation of an except-Exception clause: a caught body
exception is replaced by the fall-through value (the method returns
None), a normal body value passes through. -/
def pyCatch {α : Type} (r : Except PyExc α) (fallThrough : α) : Except PyExc α :=
  match r with
  | Except.ok v => Except.ok v
  | Except.error _ => Except.ok fallThrough

/-- Embedding of AQ6370D.get_single_trace (lines 108-132): the except
clause catches every body exception (the method then returns None) and
the finally clause runs close_socket on every exit path. -/
def AQ_get_single_trace (env : DeviceEnv) (w1 w2 : ℚ) :
    Except PyExc (Option (List Char)) × OSAState :=
  (pyCatch (AQ_trace_body env w1 w2).1 none, close_socket (AQ_trace_body env w1 w2).2)

/-- The value/exception the try-block of OSA.get_single_trace (OSA.py
lines 172-229) produces from the query result: TypeError from printing
None, NameError from returning the unbound wavelengths/intensities when
trace_data is empty or has no sentinel, ValueError from a malformed
sample, and otherwise the (wavelengths, intensities) pair with the axis
derived over exactly len(intensities) points. -/
def OSA_body_result (td : Option (List Char)) (w1 w2 : ℚ) :
    Except PyExc (Option (List ℚ × List PyFloatVal)) :=
  match td with
  | none => Except.error PyExc.typeError
  | some t =>
    if t.isEmpty then Except.error PyExc.nameError
    else
      match findAfter readyChars t with
      | none => Except.error PyExc.nameError
      | some after =>
        match parseIntensities after with
        | none => Except.error PyExc.valueError
        | some intens =>
          Except.ok (some (pyLinspace w1 w2 intens.length, intens))

/-- The try-block of OSA.get_single_trace, paired with the driver state
it reaches. -/
def OSA_trace_body (env : DeviceEnv) (w1 w2 : ℚ) :
    Except PyExc (Option (List ℚ × List PyFloatVal)) × OSAState :=
  (OSA_body_result (osaQuery env (pipelineState env w1 w2) Cmd.traceQuery).2 w1 w2,
   (osaQuery env (pipelineState env w1 w2) Cmd.traceQuery).1)

/-- Embedding of OSA.get_single_trace (OSA.py lines 172-233): the except
clause catches every body exception (the method then returns None) and
the finally clause runs close_socket on every exit path. -/
def OSA_get_single_trace (env : DeviceEnv) (w1 w2 : ℚ) :
    Except PyExc (Option (List ℚ × List PyFloatVal)) × OSAState :=
  (pyCatch (OSA_trace_body env w1 w2).1 none, close_socket (OSA_trace_body env w1 w2).2)

/-- An environment whose receive fails fatally. -/
def envRecvErr : DeviceEnv :=
  { socketCreateOk := true, connectOk := true, sendOk := true,
    recvOutcome := Except.error () }

/-- An environment whose receive delivers a malformed sample payload. -/
def envMalformed : DeviceEnv :=
  { socketCreateOk := true, connectOk := true, sendOk := true,
    recvOutcome := Except.ok [ReadEvent.chunk ((chars "ready,abc").map Char.toNat),
      ReadEvent.timeout] }

/-- A session state that already established a target of 1 sample. -/
def s9mis : SessionState := { target := some 1, count := 1, saved := [], sleeps := 0 }

/-- The iteration result of the end-to-end mock response on a fresh
session. -/
def c9AccPair : SessionState × IterOutcome :=
  (sessionIter initSession (some goodResp)).toOption.getD (initSession, IterOutcome.noData)

/-- The session state after the consistency-gate scenario of lengths
100, 100, 99, 100 with three required iterations. -/
def sGateFinal : SessionState :=
  (runSession 3 initSession
    [some (mkResp 100), some (mkResp 100), some (mkResp 99), some (mkResp 100)]).toOption.getD
    initSession

/-! ### Helper lemmas -/

/-- A text containing the sentinel is Python-truthy (non-empty). -/
theorem isEmpty_false_of_findAfter {t after : List Char}
    (h : findAfter readyChars t = some after) : t.isEmpty = false := by
  cases t with
  | nil => simp [findAfter] at h
  | cons c cs => rfl

/-- Unfolding one loop iteration. -/
theorem runSession_cons_ok {required : Nat} {s : SessionState} {r : Option (List Char)}
    {rest : List (Option (List Char))} {p : SessionState × IterOutcome}
    (h : sessionIter s r = Except.ok p) (hlt : s.count < required) :
    runSession required s (r :: rest) = runSession required p.1 rest := by
  conv_lhs => rw [runSession]
  rw [if_pos hlt]
  simp only [h]

/-- The receive loop accumulates exactly the chunks read before the
terminating zero-byte read or timeout. -/
theorem receiveLoop_eq_flatten (events : List ReadEvent) :
    receiveLoop events = (chunksBeforeTermination events).flatten := by
  induction events with
  | nil => rfl
  | cons e rest ih =>
    cases e with
    | timeout => rfl
    | chunk b =>
      by_cases hb : b.isEmpty
      · simp [receiveLoop, chunksBeforeTermination, isDataChunk, hb, List.takeWhile_cons]
      · simp [receiveLoop, chunksBeforeTermination, isDataChunk, chunkBytes, hb,
          List.takeWhile_cons, ih]

/-- open_socket never closes anything. -/
theorem open_socket_closeMethodRuns (env : DeviceEnv) (s : OSAState) :
    (open_socket env s).closeMethodRuns = s.closeMethodRuns := by
  unfold open_socket
  split
  · split <;> rfl
  · rfl

/-- send_cmd never closes anything. -/
theorem send_cmd_closeMethodRuns (env : DeviceEnv) (s : OSAState) (c : Cmd) :
    (send_cmd env s c).closeMethodRuns = s.closeMethodRuns := by
  unfold send_cmd
  split
  · split <;> rfl
  · rfl

/-- A command sequence never closes anything. -/
theorem sendSeq_closeMethodRuns (env : DeviceEnv) :
    ∀ (cmds : List Cmd) (s : OSAState),
      (sendSeq env s cmds).closeMethodRuns = s.closeMethodRuns := by
  intro cmds
  induction cmds with
  | nil => intro s; rfl
  | cons c cs ih =>
    intro s
    show (sendSeq env (send_cmd env s c) cs).closeMethodRuns = s.closeMethodRuns
    rw [ih, send_cmd_closeMethodRuns]

/-- The close_socket method always runs close exactly once more. -/
theorem close_socket_closeMethodRuns (s : OSAState) :
    (close_socket s).closeMethodRuns = s.closeMethodRuns + 1 := by
  unfold close_socket
  split <;> rfl

/-- The try-block of AQ6370D.get_single_trace never runs close_socket. -/
theorem AQ_body_closeMethodRuns (env : DeviceEnv) (w1 w2 : ℚ) :
    (AQ_trace_body env w1 w2).2.closeMethodRuns = 0 := by
  show (send_cmd env (pipelineState env w1 w2) Cmd.traceQuery).closeMethodRuns = 0
  rw [send_cmd_closeMethodRuns]
  show (sendSeq env (open_socket env initOSA) (cmdSequence w1 w2)).closeMethodRuns = 0
  rw [sendSeq_closeMethodRuns, open_socket_closeMethodRuns]
  rfl

/-- The try-block of OSA.get_single_trace never runs close_socket. -/
theorem OSA_body_closeMethodRuns (env : DeviceEnv) (w1 w2 : ℚ) :
    (OSA_trace_body env w1 w2).2.closeMethodRuns = 0 := by
  show (send_cmd env (pipelineState env w1 w2) Cmd.traceQuery).closeMethodRuns = 0
  rw [send_cmd_closeMethodRuns]
  show (sendSeq env (open_socket env initOSA) (cmdSequence w1 w2)).closeMethodRuns = 0
  rw [sendSeq_closeMethodRuns, open_socket_closeMethodRuns]
  rfl

/-- pyCatch never lets an exception through. -/
theorem pyCatch_ok {α : Type} (r : Except PyExc α) (d : α) :
    ∃ v, pyCatch r d = Except.ok v := by
  cases r with
  | ok v => exact ⟨v, rfl⟩
  | error e => exact ⟨d, rfl⟩

/-- AQ6370D.get_single_trace returns normally and runs close_socket
exactly once, in every environment. -/
theorem AQ_get_parts (env : DeviceEnv) (w1 w2 : ℚ) :
    (∃ v, (AQ_get_single_trace env w1 w2).1 = Except.ok v) ∧
    (AQ_get_single_trace env w1 w2).2.closeMethodRuns = 1 := by
  constructor
  · exact pyCatch_ok (AQ_trace_body env w1 w2).1 none
  · show (close_socket (AQ_trace_body env w1 w2).2).closeMethodRuns = 1
    rw [close_socket_closeMethodRuns, AQ_body_closeMethodRuns]

/-- OSA.get_single_trace returns normally and runs close_socket exactly
once, in every environment. -/
theorem OSA_get_parts (env : DeviceEnv) (w1 w2 : ℚ) :
    (∃ v, (OSA_get_single_trace env w1 w2).1 = Except.ok v) ∧
    (OSA_get_single_trace env w1 w2).2.closeMethodRuns = 1 := by
  constructor
  · exact pyCatch_ok (OSA_trace_body env w1 w2).1 none
  · show (close_socket (OSA_trace_body env w1 w2).2).closeMethodRuns = 1
    rw [close_socket_closeMethodRuns, OSA_body_closeMethodRuns]

/-- float("1.0") is exactly 1. -/
theorem pyFloat_10 : pyFloat ['1', '.', '0'] = some (PyFloatVal.fin 1) := by
  simp [pyFloat, pyStrip, parseUnsignedFloat, takeDigitsU, digitsCont, parseExponent,
    digitsToNat, chars, isPySpace]

/-- float("2.0") is exactly 2. -/
theorem pyFloat_20 : pyFloat ['2', '.', '0'] = some (PyFloatVal.fin 2) := by
  simp [pyFloat, pyStrip, parseUnsignedFloat, takeDigitsU, digitsCont, parseExponent,
    digitsToNat, chars, isPySpace]

/-- float("3.0") is exactly 3. -/
theorem pyFloat_30 : pyFloat ['3', '.', '0'] = some (PyFloatVal.fin 3) := by
  simp [pyFloat, pyStrip, parseUnsignedFloat, takeDigitsU, digitsCont, parseExponent,
    digitsToNat, chars, isPySpace]

/-- float("1.1") is exactly 11/10. -/
theorem pyFloat_11 : pyFloat ['1', '.', '1'] = some (PyFloatVal.fin (11 / 10)) := by
  simp [pyFloat, pyStrip, parseUnsignedFloat, takeDigitsU, digitsCont, parseExponent,
    digitsToNat, chars, isPySpace]
  norm_num

/-- float("2.2") is exactly 11/5. -/
theorem pyFloat_22 : pyFloat ['2', '.', '2'] = some (PyFloatVal.fin (11 / 5)) := by
  simp [pyFloat, pyStrip, parseUnsignedFloat, takeDigitsU, digitsCont, parseExponent,
    digitsToNat, chars, isPySpace]
  norm_num

/-- float("3.3") is exactly 33/10. -/
theorem pyFloat_33 : pyFloat ['3', '.', '3'] = some (PyFloatVal.fin (33 / 10)) := by
  simp [pyFloat, pyStrip, parseUnsignedFloat, takeDigitsU, digitsCont, parseExponent,
    digitsToNat, chars, isPySpace]
  norm_num

/-- The end-to-end mock payload parses to exactly 1.1, 2.2, 3.3. -/
theorem parseGoodEval : parseIntensities (chars ",1.1,2.2,3.3") =
    some [PyFloatVal.fin (11 / 10), PyFloatVal.fin (11 / 5), PyFloatVal.fin (33 / 10)] := by
  have hsplit : (splitOnChar ',' (chars ",1.1,2.2,3.3")).filter
      (fun seg => !(pyStrip seg).isEmpty) = [chars "1.1", chars "2.2", chars "3.3"] := by
    decide
  simp [parseIntensities, hsplit, pyFloat_11, pyFloat_22, pyFloat_33,
    List.mapM, List.mapM.loop]

/-- Loop unfolding when the body raises. -/
theorem runSession_cons_error {required : Nat} {s : SessionState} {r : Option (List Char)}
    {rest : List (Option (List Char))} {e : PyExc}
    (h : sessionIter s r = Except.error e) (hlt : s.count < required) :
    runSession required s (r :: rest) = Except.error e := by
  conv_lhs => rw [runSession]
  rw [if_pos hlt]
  simp only [h]

/-! ### Claims -/

/-- C1: the target sample count is established by the first successfully
parsed trace (which is itself accepted); afterwards a parsed trace is
accepted (counter incremented, record handed to the persistence
collaborator) exactly when its sample count equals the target, and a
mismatched trace is discarded with the whole state unchanged.  In
particular, parsed traces of lengths 100, 100, 99, 100 yield accepted
iterations 1, 2, 3 with the 99-sample trace discarded in between. -/
theorem claim_C1_consistency_gate :
    (∀ (s : SessionState) (t after : List Char) (intens : List PyFloatVal),
      findAfter readyChars t = some after →
      parseIntensities after = some intens →
      ((s.target = none →
          sessionIter s (some t) =
            Except.ok ({ target := some intens.length,
                         count := s.count + 1,
                         saved := s.saved ++
                           [{ wavelengths := pyLinspace 600 1100 intens.length,
                              intensities := intens, iteration := s.count + 1 }],
                         sleeps := s.sleeps + 1 }, IterOutcome.accepted)) ∧
        ∀ tgt, s.target = some tgt →
          ((intens.length = tgt →
              sessionIter s (some t) =
                Except.ok ({ s with
                             count := s.count + 1,
                             saved := s.saved ++
                               [{ wavelengths := pyLinspace 600 1100 intens.length,
                                  intensities := intens, iteration := s.count + 1 }],
                             sleeps := s.sleeps + 1 }, IterOutcome.accepted)) ∧
            (intens.length ≠ tgt →
              sessionIter s (some t) = Except.ok (s, IterOutcome.discardedMismatch))))) ∧
    (runSession 3 initSession
        [some (mkResp 100), some (mkResp 100), some (mkResp 99), some (mkResp 100)]).toOption.map
        (fun s1 => (s1.count, s1.target, s1.saved.map SaveRecord.iteration,
          s1.saved.map (fun rec => rec.intensities.length))) =
      some (3, some 100, [1, 2, 3], [100, 100, 100]) := by
  constructor
  · intro s t after intens hf hp
    have ht : t.isEmpty = false := isEmpty_false_of_findAfter hf
    refine ⟨?_, ?_⟩
    · intro htgt
      simp [sessionIter, ht, hf, hp, htgt]
    · intro tgt htgt
      refine ⟨?_, ?_⟩
      · intro hlen
        simp [sessionIter, ht, hf, hp, htgt, hlen]
      · intro hlen
        simp [sessionIter, ht, hf, hp, htgt, hlen]
  · decide

/-- Witness for C1: the gate theorem applied to a fresh session and the
concrete trace "ready,1.0". -/
theorem claim_C1_consistency_gate_witness :
    sessionIter initSession (some (chars "ready,1.0")) =
      Except.ok ({ target := some ((parseIntensities (chars ",1.0")).getD []).length,
                   count := initSession.count + 1,
                   saved := initSession.saved ++
                     [{ wavelengths :=
                          pyLinspace 600 1100 ((parseIntensities (chars ",1.0")).getD []).length,
                        intensities := (parseIntensities (chars ",1.0")).getD [],
                        iteration := initSession.count + 1 }],
                   sleeps := initSession.sleeps + 1 }, IterOutcome.accepted) :=
  (claim_C1_consistency_gate.1 initSession (chars "ready,1.0") (chars ",1.0")
    ((parseIntensities (chars ",1.0")).getD []) (by decide) rfl).1 rfl

/-- C2: the claimed lifecycle (loop until the counter equals
required_iterations, exactly one collaborator hand-off per accepted
iteration) is what the spec intends, but the script as written breaks
it before any response handling: the line-178 call
osa.get_single_trace() omits the two required positional arguments of
the method defined at line 108, so every iteration raises TypeError at
the call site, uncaught - for every positive required_iterations the
run dies on its first iteration with the counter still 0 and the
persistence collaborator never invoked, and the loop never reaches the
claimed terminal condition. -/
theorem claim_C2_arity_crash :
    (∀ (required : Nat) (calls : List (Except PyExc (Option (List Char)))),
      runSessionCalls (required + 1) initSession (line178Call :: calls) =
        Except.error PyExc.typeError) ∧
    runSessionCalls 3 initSession (List.replicate 4 line178Call) =
      Except.error PyExc.typeError ∧
    line178Call = Except.error PyExc.typeError := by
  refine ⟨?_, rfl, rfl⟩
  intro required calls
  have h0 : initSession.count < required + 1 := Nat.succ_pos required
  unfold runSessionCalls
  rw [if_pos h0]
  rfl

/-- C3: for a response containing the sentinel, the code parse on the
text after the first "ready" coincides with the spec parser (split on the
comma, drop empty or whitespace-only segments, convert the rest with
float in order); on "junk,ready,1.0,2.0,,3.0" the result is exactly
1.0, 2.0, 3.0. -/
theorem claim_C3_sentinel_parsing :
    (∀ (t after : List Char), findAfter readyChars t = some after →
        specSentinelParse t = parseIntensities after) ∧
    specSentinelParse (chars "junk,ready,1.0,2.0,,3.0") =
      some [PyFloatVal.fin 1, PyFloatVal.fin 2, PyFloatVal.fin 3] := by
  constructor
  · intro t after hf
    simp [specSentinelParse, parseIntensities, hf]
  · have hf : findAfter readyChars (chars "junk,ready,1.0,2.0,,3.0") =
        some (chars ",1.0,2.0,,3.0") := by decide
    have hsplit : (splitOnChar ',' (chars ",1.0,2.0,,3.0")).filter
        (fun seg => !(pyStrip seg).isEmpty) =
        [['1', '.', '0'], ['2', '.', '0'], ['3', '.', '0']] := by decide
    simp [specSentinelParse, hf, hsplit, pyFloat_10, pyFloat_20, pyFloat_30,
      List.mapM, List.mapM.loop]

/-- Witness for C3: the refinement instantiated on a concrete sentinel
response. -/
theorem claim_C3_sentinel_parsing_witness :
    specSentinelParse (chars "ready,1.0") = parseIntensities (chars ",1.0") :=
  claim_C3_sentinel_parsing.1 (chars "ready,1.0") (chars ",1.0") (by decide)

/-- C4: the receive loop accumulates exactly the non-empty chunks read
before the first zero-byte read or idle timeout, terminates normally on
the timeout, and the returned text is the best-effort decoding of their
concatenation. -/
theorem claim_C4_receiver_accumulation (events : List ReadEvent) :
    receiveLoop events = (chunksBeforeTermination events).flatten ∧
    receiveText events = utf8DecodeIgnore (chunksBeforeTermination events).flatten :=
  ⟨receiveLoop_eq_flatten events,
   congrArg utf8DecodeIgnore (receiveLoop_eq_flatten events)⟩

/-- C5: a response without the sentinel is discarded: the counter, the
target and the hand-off list are unchanged (only the inter-iteration
sleep happens), and the loop goes on to the next iteration with the next
(fresh-transport) response. -/
theorem claim_C5_missing_sentinel (s : SessionState) (t : List Char)
    (h : findAfter readyChars t = none) :
    sessionIter s (some t) =
      Except.ok ({ s with sleeps := s.sleeps + 1 },
        if t.isEmpty then IterOutcome.noData else IterOutcome.noSentinel) ∧
    ∀ required rest, s.count < required →
      runSession required s (some t :: rest) =
        runSession required { s with sleeps := s.sleeps + 1 } rest := by
  have h1 : sessionIter s (some t) =
      Except.ok ({ s with sleeps := s.sleeps + 1 },
        if t.isEmpty then IterOutcome.noData else IterOutcome.noSentinel) := by
    by_cases ht : t.isEmpty
    · simp [sessionIter, ht]
    · simp [sessionIter, ht, h]
  exact ⟨h1, fun required rest hlt => runSession_cons_ok h1 hlt⟩

/-- Witness for C5: the spec test input "no-sentinel-here,1,2,3". -/
theorem claim_C5_missing_sentinel_witness :
    sessionIter initSession (some (chars "no-sentinel-here,1,2,3")) =
      Except.ok ({ initSession with sleeps := initSession.sleeps + 1 },
        if (chars "no-sentinel-here,1,2,3").isEmpty then IterOutcome.noData
        else IterOutcome.noSentinel) ∧
    runSession 1 initSession [some (chars "no-sentinel-here,1,2,3")] =
      runSession 1 { initSession with sleeps := initSession.sleeps + 1 } [] :=
  ⟨(claim_C5_missing_sentinel initSession (chars "no-sentinel-here,1,2,3") (by decide)).1,
   (claim_C5_missing_sentinel initSession (chars "no-sentinel-here,1,2,3") (by decide)).2
     1 [] (by decide)⟩

/-- C6 counterexample: with required_iterations 1 and a first response
whose post-sentinel segment "abc" is not numeric, the acquisition loop
does not discard and retry - the uncaught float ValueError terminates the
whole run before any further response is tried, contradicting the claim
that the session absorbs malformed-sample failures into the retry
loop. -/
theorem claim_C6_counterexample :
    runSession 1 initSession [some (chars "ready,abc"), some (chars "ready,1.0")] =
      Except.error PyExc.valueError := rfl

/-- C6 as amended: a response containing the sentinel followed by a
non-numeric non-whitespace segment makes the parse fail, and the failure
is not absorbed: the error propagates out of the loop body uncaught and
terminates the session, with no counter advance and no collaborator
invocation. -/
theorem claim_C6_malformed_sample (s : SessionState) (t after : List Char)
    (h1 : findAfter readyChars t = some after) (h2 : parseIntensities after = none) :
    sessionIter s (some t) = Except.error PyExc.valueError ∧
    ∀ required rest, s.count < required →
      runSession required s (some t :: rest) = Except.error PyExc.valueError := by
  have ht := isEmpty_false_of_findAfter h1
  have hIter : sessionIter s (some t) = Except.error PyExc.valueError := by
    simp [sessionIter, ht, h1, h2]
  exact ⟨hIter, fun required rest hlt => runSession_cons_error hIter hlt⟩

/-- Witness for C6: the malformed response "ready,abc". -/
theorem claim_C6_malformed_sample_witness :
    sessionIter initSession (some (chars "ready,abc")) = Except.error PyExc.valueError ∧
    runSession 1 initSession [some (chars "ready,abc")] = Except.error PyExc.valueError :=
  ⟨(claim_C6_malformed_sample initSession (chars "ready,abc") (chars ",abc")
      (by decide) (by decide)).1,
   (claim_C6_malformed_sample initSession (chars "ready,abc") (chars ",abc")
      (by decide) (by decide)).2 1 [] (by decide)⟩

/-- C7: numpy.linspace always yields exactly num points, so the two
acquisition-path axis derivations (axis over len(intensities) points)
keep len(axis) = len(samples); but ArrayForLabview derives its axis over
len(InputArray) - the character count of the input string - so on
"xready1.0,2.0" (13 characters, 2 samples) it returns a 13-point axis
for 2 samples, violating the invariant. -/
theorem claim_C7_axis_length :
    (∀ (a b : ℚ) (n : Nat), (pyLinspace a b n).length = n) ∧
    (ArrayForLabview (chars "xready1.0,2.0") 600 1100).map
        (fun p => (p.1.length, p.2.length)) = some (13, 2) := by
  constructor
  · intro a b n
    rcases n with _ | n1
    · rfl
    · rcases n1 with _ | m
      · rfl
      · show ((List.range (m + 2)).map
            (fun (i : Nat) => a + ((b - a) * (i : ℚ)) / ((m : ℚ) + 1))).length = m + 2
        rw [List.length_map, List.length_range]
  · decide

/-- C8 counterexample: with the connection absent (and likewise with a
failing write), send_command swallows the error and returns normally -
it does not fail with ConnectionError as the claim states. -/
theorem claim_C8_counterexample :
    send_command false true (chars "*RST") =
      { written := none, slept := 0, raised := false } ∧
    send_command true false (chars "*RST") =
      { written := none, slept := 0, raised := false } :=
  ⟨rfl, rfl⟩

/-- C8 as amended: on the success path send appends the CRLF terminator,
writes the bytes and imposes the fixed 0.2 settle delay before
returning; when the connection is absent or the write fails, the error
is caught and logged and send returns normally (no exception reaches the
caller, and there is no retry). -/
theorem claim_C8_send_contract :
    (∀ (socketPresent writeOk : Bool) (cmd : List Char),
      (send_command socketPresent writeOk cmd).raised = false) ∧
    (∀ cmd : List Char,
      send_command true true cmd =
        { written := some (cmd ++ ['\r', '\n']), slept := 2 / 10, raised := false }) := by
  constructor
  · intro sp wo cmd
    cases sp <;> cases wo <;> rfl
  · intro cmd
    rfl

/-- C9 counterexample: an iteration discarded for a sample-count
mismatch returns through the continue statement with the state - and in
particular the sleep counter - completely unchanged, so the fixed 0.1
inter-iteration delay is not executed for it, contradicting the claim
that the delay runs after every iteration regardless of outcome. -/
theorem claim_C9_counterexample :
    sessionIter s9mis (some (chars "ready,1.0,2.0")) =
      Except.ok (s9mis, IterOutcome.discardedMismatch) ∧ s9mis.sleeps = 0 :=
  ⟨rfl, rfl⟩

/-- C9 as amended: the fixed 0.1 inter-iteration delay is executed after
every iteration that completes without an exception except those
discarded for a sample-count mismatch, whose continue statement skips
the delay and leaves the sleep count unchanged. -/
theorem claim_C9_inter_iteration_delay (s : SessionState) (r : Option (List Char))
    (p : SessionState × IterOutcome) (h : sessionIter s r = Except.ok p) :
    (p.2 = IterOutcome.discardedMismatch → p.1.sleeps = s.sleeps) ∧
    (p.2 ≠ IterOutcome.discardedMismatch → p.1.sleeps = s.sleeps + 1) := by
  rcases r with _ | t
  · simp only [sessionIter] at h
    cases h
    simp
  · simp only [sessionIter] at h
    split at h
    · cases h
      simp
    · split at h
      · cases h
        simp
      · split at h
        · exact Except.noConfusion h
        · split at h
          · cases h
            simp
          · split at h
            · cases h
              simp
            · cases h
              simp

/-- Witness for C9: a mismatch-discarded iteration keeps its sleep count
and an accepted iteration increments it. -/
theorem claim_C9_inter_iteration_delay_witness :
    (s9mis, IterOutcome.discardedMismatch).1.sleeps = s9mis.sleeps ∧
    c9AccPair.1.sleeps = initSession.sleeps + 1 :=
  ⟨(claim_C9_inter_iteration_delay s9mis (some (chars "ready,1.0,2.0"))
      (s9mis, IterOutcome.discardedMismatch) rfl).1 rfl,
   (claim_C9_inter_iteration_delay initSession (some goodResp) c9AccPair rfl).2 (by decide)⟩

/-- C10: get_single_trace (both driver variants) never propagates an
exception - every body outcome yields a normal return, erroring bodies
return None - and the close_socket cleanup runs exactly once on every
exit path; the bodies really can raise internally (receive failure gives
a TypeError at the trace_data print, a malformed sample a ValueError in
the OSA variant), and those runs return None. -/
theorem claim_C10_no_exception_propagation :
    (∀ (env : DeviceEnv) (w1 w2 : ℚ), ∃ v, (AQ_get_single_trace env w1 w2).1 = Except.ok v) ∧
    (∀ (env : DeviceEnv) (w1 w2 : ℚ),
      (AQ_get_single_trace env w1 w2).2.closeMethodRuns = 1) ∧
    (AQ_trace_body envRecvErr 600 1100).1 = Except.error PyExc.typeError ∧
    (AQ_get_single_trace envRecvErr 600 1100).1 = Except.ok none ∧
    (∀ (env : DeviceEnv) (w1 w2 : ℚ), ∃ v, (OSA_get_single_trace env w1 w2).1 = Except.ok v) ∧
    (∀ (env : DeviceEnv) (w1 w2 : ℚ),
      (OSA_get_single_trace env w1 w2).2.closeMethodRuns = 1) ∧
    (OSA_trace_body envMalformed 600 1100).1 = Except.error PyExc.valueError ∧
    (OSA_get_single_trace envMalformed 600 1100).1 = Except.ok none :=
  ⟨fun env w1 w2 => (AQ_get_parts env w1 w2).1,
   fun env w1 w2 => (AQ_get_parts env w1 w2).2,
   rfl, rfl,
   fun env w1 w2 => (OSA_get_parts env w1 w2).1,
   fun env w1 w2 => (OSA_get_parts env w1 w2).2,
   rfl, rfl⟩
